import Mathlib

/-!
# ChargeWay: the view-state orchestration of `MapContainer`

A shallow embedding of `src/src/MapContainer.js`.  The React component keeps six
state cells (`map`, `stations`, `currentLocation`, `selectedStation`, `distances`,
`directionsResponse`).  Every handler and every SDK callback of the component is
translated to a function on a `State` snapshot.  A function that reads a state
cell through its closure takes the snapshot of the render that created the
closure as `env`; a callback that runs later takes, in addition, the snapshot
`cur` that is current when it runs and whose cells the setters replace.
Requests handed to the SDK are returned as a list of `Effect`s; `Sys` keeps the
requests that have not been answered yet, and `step` is the transition of the
component on one external event.
-/

namespace ChargeWay

/-! ## Values handed around by the component -/

/-- A coordinate pair `{ lat, lng }`.  The component never computes with the two
numbers, it only stores and forwards them. -/
structure LatLng where
  lat : Int
  lng : Int
deriving DecidableEq, Repr

/-- The `geometry` member of a place result. -/
structure Geometry where
  location : LatLng
deriving DecidableEq, Repr

/-- A place result of `nearbySearch`.  `oid` stands for the identity of the
JavaScript object: `indexOf` compares with `===`, and two results are the same
object exactly when they agree on `oid` and hence on every member. -/
structure Station where
  oid : Nat
  place_id : String
  name : String
  vicinity : String
  geometry : Geometry
deriving DecidableEq, Repr

/-- The handle of a loaded map instance. -/
structure MapHandle where
  id : Nat
deriving DecidableEq, Repr

/-- The payload of a directions result; opaque to the component. -/
structure DirectionsResult where
  id : Nat
deriving DecidableEq, Repr

/-- The member `google.maps.places.PlacesServiceStatus` of the SDK. -/
inductive PlacesServiceStatus where
  | OK
  | ZERO_RESULTS
  | INVALID_REQUEST
  | NOT_FOUND
  | OVER_QUERY_LIMIT
  | REQUEST_DENIED
  | UNKNOWN_ERROR
deriving DecidableEq, Repr

/-- The member `google.maps.DistanceMatrixStatus` of the SDK. -/
inductive DistanceMatrixStatus where
  | OK
  | INVALID_REQUEST
  | MAX_DIMENSIONS_EXCEEDED
  | MAX_ELEMENTS_EXCEEDED
  | OVER_QUERY_LIMIT
  | REQUEST_DENIED
  | UNKNOWN_ERROR
deriving DecidableEq, Repr

/-- The member `google.maps.DirectionsStatus` of the SDK. -/
inductive DirectionsStatus where
  | OK
  | INVALID_REQUEST
  | MAX_WAYPOINTS_EXCEEDED
  | NOT_FOUND
  | OVER_QUERY_LIMIT
  | REQUEST_DENIED
  | UNKNOWN_ERROR
  | ZERO_RESULTS
deriving DecidableEq, Repr

/-- The member `google.maps.TravelMode` of the SDK. -/
inductive TravelMode where
  | DRIVING
  | BICYCLING
  | TRANSIT
  | WALKING
deriving DecidableEq, Repr

/-- The `distance` member of a distance-matrix element. -/
structure Distance where
  value : Int
deriving DecidableEq, Repr

/-- One element of a distance-matrix row.  `distance` is undefined (`none`) when
the provider has no distance for that pair. -/
structure DistanceMatrixResponseElement where
  distance : Option Distance
deriving DecidableEq, Repr

/-- One row of a distance-matrix response. -/
structure DistanceMatrixResponseRow where
  elements : List DistanceMatrixResponseElement
deriving DecidableEq, Repr

/-- The response object of `getDistanceMatrix`. -/
structure DistanceMatrixResponse where
  rows : List DistanceMatrixResponseRow
deriving DecidableEq, Repr

/-- The `coords` member of a geolocation position. -/
structure Coordinates where
  latitude : Int
  longitude : Int
deriving DecidableEq, Repr

/-- The argument of the geolocation success callback. -/
structure Position where
  coords : Coordinates
deriving DecidableEq, Repr

/-! ## Requests -/

/-- The request object built in `fetchNearbyStations` (lines 58-62). -/
structure PlaceSearchRequest where
  location : LatLng
  radius : String
  type : List String
deriving DecidableEq, Repr

/-- The request object built in `calculateDistances` (lines 82-86). -/
structure DistanceMatrixRequest where
  origins : List LatLng
  destinations : List LatLng
  travelMode : TravelMode
deriving DecidableEq, Repr

/-- The request object built in `getDirections` (lines 100-104). -/
structure DirectionsRequest where
  origin : LatLng
  destination : LatLng
  travelMode : TravelMode
deriving DecidableEq, Repr

/-! ## The state cells of the component (lines 12-17) -/

/-- One snapshot of the six `useState` cells. -/
structure State where
  map : Option MapHandle
  stations : List Station
  currentLocation : LatLng
  selectedStation : Option Station
  distances : List Int
  directionsResponse : Option DirectionsResult
deriving DecidableEq, Repr

/-- The initial values passed to `useState` (lines 12-17). -/
def State.initial : State :=
  { map := none
    stations := []
    currentLocation := { lat := 0, lng := 0 }
    selectedStation := none
    distances := []
    directionsResponse := none }

/-- An exception raised by the JavaScript runtime. -/
inductive JsError where
  | typeError (reading : String)
deriving DecidableEq, Repr

/-- What a handler hands to the outside world.  A request carries the snapshot
`env` of the render whose closure is registered as its callback, when that
callback reads state cells. -/
inductive Effect where
  | consoleError (msg : String)
  | fitBounds (m : MapHandle)
  | panTo (m : MapHandle) (pos : LatLng)
  | getCurrentPosition (env : State)
  | nearbySearch (env : State) (m : MapHandle) (request : PlaceSearchRequest)
  | getDistanceMatrix (request : DistanceMatrixRequest)
  | route (request : DirectionsRequest)
deriving DecidableEq, Repr

/-! ## The handlers of `MapContainer.js` -/

/-- Lines 19-23: `onLoad`. -/
def onLoad (cur : State) (m : MapHandle) : State × List Effect :=
  ({ cur with map := some m }, [Effect.fitBounds m])

/-- Lines 25-27: `onUnmount`. -/
def onUnmount (cur : State) : State :=
  { cur with map := none }

/-- Lines 30-45: `fetchCurrentLocation`.  `geolocation` tells whether
`navigator.geolocation` is present.  The call itself writes no state cell. -/
def fetchCurrentLocation (env : State) (geolocation : Bool) : List Effect :=
  if geolocation then
    [Effect.getCurrentPosition env]
  else
    [Effect.consoleError "Geolocation not supported by this browser"]

/-- Lines 33-37: the success callback of `getCurrentPosition`.  `map` is read
through the closure (`env`), the setter replaces the cell of `cur`. -/
def positionSuccess (env cur : State) (position : Position) : State × List Effect :=
  let latitude := position.coords.latitude
  let longitude := position.coords.longitude
  ({ cur with currentLocation := { lat := latitude, lng := longitude } },
   match env.map with
   | some m => [Effect.panTo m { lat := latitude, lng := longitude }]
   | none => [])

/-- Lines 38-40: the error callback of `getCurrentPosition`. -/
def positionError (cur : State) : State × List Effect :=
  (cur, [Effect.consoleError "Error fetching location"])

/-- Lines 77-94: `calculateDistances`, up to the request.  `currentLocation` is
read through the closure; the stations are the argument. -/
def calculateDistances (env : State) (stations : List Station) : List Effect :=
  let destinations := stations.map (fun station => station.geometry.location)
  [Effect.getDistanceMatrix
    { origins := [env.currentLocation]
      destinations := destinations
      travelMode := TravelMode.DRIVING }]

/-- Line 89: `elements.map((element) => element.distance.value)`; reading
`value` of an undefined `distance` throws. -/
def elementValues : List DistanceMatrixResponseElement → Except JsError (List Int)
  | [] => Except.ok []
  | element :: rest =>
    match element.distance with
    | none => Except.error (JsError.typeError "value")
    | some d =>
      match elementValues rest with
      | Except.error e => Except.error e
      | Except.ok vs => Except.ok (d.value :: vs)

/-- Lines 87-92: the callback of `getDistanceMatrix`. -/
def distanceMatrixCallback (cur : State) (response : Option DistanceMatrixResponse)
    (status : DistanceMatrixStatus) : Except JsError State :=
  if status = DistanceMatrixStatus.OK then
    match response with
    | none => Except.error (JsError.typeError "rows")
    | some r =>
      match r.rows with
      | [] => Except.error (JsError.typeError "elements")
      | row :: _ =>
        match elementValues row.elements with
        | Except.error e => Except.error e
        | Except.ok distances => Except.ok { cur with distances := distances }
  else
    Except.ok cur

/-- Lines 52-74: `fetchNearbyStations`, up to the request. -/
def fetchNearbyStations (env : State) : List Effect :=
  match env.map with
  | none => [Effect.consoleError "Map is not loaded yet"]
  | some m =>
    let request : PlaceSearchRequest :=
      { location := env.currentLocation
        radius := "5000"
        type := ["electric_vehicle_charging_station"] }
    [Effect.nearbySearch env m request]

/-- Lines 65-73: the callback of `nearbySearch`.  `results.length` is read only
when the status is `OK` (`&&` short-circuits) and throws on `null`. -/
def nearbySearchCallback (env cur : State) (results : Option (List Station))
    (status : PlacesServiceStatus) : Except JsError (State × List Effect) :=
  if status = PlacesServiceStatus.OK then
    match results with
    | none => Except.error (JsError.typeError "length")
    | some rs =>
      if rs.length > 0 then
        Except.ok ({ cur with stations := rs }, calculateDistances env rs)
      else
        Except.ok ({ cur with stations := [] },
          [Effect.consoleError "No electric vehicle charging stations found"])
  else
    Except.ok ({ cur with stations := [] },
      [Effect.consoleError "No electric vehicle charging stations found"])

/-- Lines 97-113: `getDirections`, up to the request. -/
def getDirections (env : State) (destination : LatLng) : List Effect :=
  [Effect.route
    { origin := env.currentLocation
      destination := destination
      travelMode := TravelMode.DRIVING }]

/-- Lines 105-111: the callback of `route`. -/
def directionsCallback (cur : State) (result : Option DirectionsResult)
    (status : DirectionsStatus) : State × List Effect :=
  if status = DirectionsStatus.OK then
    ({ cur with directionsResponse := result }, [])
  else
    (cur, [Effect.consoleError "Error fetching directions"])

/-- Lines 116-118: `clearDirections`. -/
def clearDirections (cur : State) : State :=
  { cur with directionsResponse := none }

/-- Lines 121-125: `handleStationClick`.  `index` is not used by the body. -/
def handleStationClick (cur : State) (station : Station) (_index : Nat) :
    State × List Effect :=
  let s1 := { cur with selectedStation := some station }
  let s2 := clearDirections s1
  (s2, getDirections cur station.geometry.location)

/-- Line 171: the `onCloseClick` handler of the info window. -/
def onCloseClick (cur : State) : State :=
  { cur with selectedStation := none }

/-- `Array.prototype.indexOf`: the first position of `x`, or `-1`. -/
def indexOf (xs : List Station) (x : Station) : Int :=
  if x ∈ xs then (xs.indexOf x : Int) else -1

/-- Reading `xs[k]` for an integer `k`: undefined outside `0 .. length - 1`. -/
def arrayGet (xs : List Int) (k : Int) : Option Int :=
  if 0 ≤ k then xs[k.toNat]? else none

/-- Line 175: `distances[stations.indexOf(selectedStation)]`, read while the
info window is rendered (line 165: only when `selectedStation` is set). -/
def infoWindowDistance (cur : State) : Option Int :=
  match cur.selectedStation with
  | none => none
  | some st => arrayGet cur.distances (indexOf cur.stations st)

/-! ## The component with its outstanding requests -/

/-- A `nearbySearch` call that has not been answered: its request and the
snapshot its callback closes over. -/
structure PendingSearch where
  env : State
  request : PlaceSearchRequest
deriving DecidableEq, Repr

/-- The component: the current snapshot and the requests awaiting an answer. -/
structure Sys where
  view : State
  positionPending : List State
  searchPending : List PendingSearch
  distancePending : List DistanceMatrixRequest
  routePending : List DirectionsRequest
deriving DecidableEq, Repr

/-- The component with the initial cell values and no request outstanding.  The
effect hook of lines 47-49 also runs once on mount; that run is the event
`fetchLocationClick` taken in this state, which leaves one position request
outstanding. -/
def Sys.initial : Sys :=
  { view := State.initial
    positionPending := []
    searchPending := []
    distancePending := []
    routePending := [] }

/-- The external events of the component.  A response names the outstanding
request it answers by its position in the queue; `geolocation` tells whether
`navigator.geolocation` is present when `fetchCurrentLocation` runs. -/
inductive Event where
  | load (m : MapHandle) (geolocation : Bool)
  | unmount (geolocation : Bool)
  | fetchLocationClick (geolocation : Bool)
  | positionOk (i : Nat) (position : Position)
  | positionFailed (i : Nat)
  | findNearbyClick
  | searchResponse (i : Nat) (results : Option (List Station)) (status : PlacesServiceStatus)
  | distanceResponse (i : Nat) (response : Option DistanceMatrixResponse)
      (status : DistanceMatrixStatus)
  | markerClick (index : Nat)
  | directionsResponse (i : Nat) (result : Option DirectionsResult) (status : DirectionsStatus)
  | infoWindowClose
deriving DecidableEq, Repr

/-- What running the handler of one event produces: the next snapshot, the
effects handed out, and the exception that escaped, if any. -/
structure Outcome where
  view : State
  effects : List Effect
  thrown : Option JsError
deriving DecidableEq, Repr

/-- Lines 47-49: the effect hook with dependency `[map]` runs
`fetchCurrentLocation` of the new render when `map` has changed. -/
def mapEffect (before after : State) (geolocation : Bool) : List Effect :=
  if before.map = after.map then [] else fetchCurrentLocation after geolocation

/-- The handler run on an event, on the current component.  A response for a
request that is not outstanding runs nothing; an exception leaves the snapshot
as it was, since every handler throws before its first setter call. -/
def react (s : Sys) : Event → Outcome
  | Event.load m geolocation =>
    let r := onLoad s.view m
    { view := r.1, effects := r.2 ++ mapEffect s.view r.1 geolocation, thrown := none }
  | Event.unmount geolocation =>
    let v := onUnmount s.view
    { view := v, effects := mapEffect s.view v geolocation, thrown := none }
  | Event.fetchLocationClick geolocation =>
    { view := s.view, effects := fetchCurrentLocation s.view geolocation, thrown := none }
  | Event.positionOk i position =>
    match s.positionPending[i]? with
    | none => { view := s.view, effects := [], thrown := none }
    | some env =>
      let r := positionSuccess env s.view position
      { view := r.1, effects := r.2, thrown := none }
  | Event.positionFailed i =>
    match s.positionPending[i]? with
    | none => { view := s.view, effects := [], thrown := none }
    | some _ =>
      let r := positionError s.view
      { view := r.1, effects := r.2, thrown := none }
  | Event.findNearbyClick =>
    { view := s.view, effects := fetchNearbyStations s.view, thrown := none }
  | Event.searchResponse i results status =>
    match s.searchPending[i]? with
    | none => { view := s.view, effects := [], thrown := none }
    | some p =>
      match nearbySearchCallback p.env s.view results status with
      | Except.error e => { view := s.view, effects := [], thrown := some e }
      | Except.ok r => { view := r.1, effects := r.2, thrown := none }
  | Event.distanceResponse i response status =>
    match s.distancePending[i]? with
    | none => { view := s.view, effects := [], thrown := none }
    | some _ =>
      match distanceMatrixCallback s.view response status with
      | Except.error e => { view := s.view, effects := [], thrown := some e }
      | Except.ok v => { view := v, effects := [], thrown := none }
  | Event.markerClick index =>
    match s.view.stations[index]? with
    | none => { view := s.view, effects := [], thrown := none }
    | some station =>
      let r := handleStationClick s.view station index
      { view := r.1, effects := r.2, thrown := none }
  | Event.directionsResponse i result status =>
    match s.routePending[i]? with
    | none => { view := s.view, effects := [], thrown := none }
    | some _ =>
      let r := directionsCallback s.view result status
      { view := r.1, effects := r.2, thrown := none }
  | Event.infoWindowClose =>
    { view := onCloseClick s.view, effects := [], thrown := none }

/-- The answered request leaves its queue. -/
def consume (s : Sys) : Event → Sys
  | Event.positionOk i _ => { s with positionPending := s.positionPending.eraseIdx i }
  | Event.positionFailed i => { s with positionPending := s.positionPending.eraseIdx i }
  | Event.searchResponse i _ _ => { s with searchPending := s.searchPending.eraseIdx i }
  | Event.distanceResponse i _ _ => { s with distancePending := s.distancePending.eraseIdx i }
  | Event.directionsResponse i _ _ => { s with routePending := s.routePending.eraseIdx i }
  | _ => s

/-- A request handed out joins the end of its queue; other effects leave no
trace in the component. -/
def enqueue (s : Sys) : Effect → Sys
  | Effect.getCurrentPosition env => { s with positionPending := s.positionPending ++ [env] }
  | Effect.nearbySearch env _ request =>
    { s with searchPending := s.searchPending ++ [{ env := env, request := request }] }
  | Effect.getDistanceMatrix request => { s with distancePending := s.distancePending ++ [request] }
  | Effect.route request => { s with routePending := s.routePending ++ [request] }
  | _ => s

/-- One transition of the component. -/
def step (s : Sys) (e : Event) : Sys :=
  let o := react s e
  { o.effects.foldl enqueue (consume s e) with view := o.view }

/-- The component after a sequence of events, oldest first. -/
def run (events : List Event) (s : Sys) : Sys :=
  events.foldl step s

/-! ## Concrete data used to evaluate the component -/

/-- Station A of the scenario in the specification. -/
def stationA : Station :=
  { oid := 1, place_id := "place-a", name := "A", vicinity := "1 First Street",
    geometry := { location := { lat := 37, lng := -121 } } }

/-- Station B of the scenario in the specification. -/
def stationB : Station :=
  { oid := 2, place_id := "place-b", name := "B", vicinity := "2 Second Street",
    geometry := { location := { lat := 38, lng := -123 } } }

/-- A distance-matrix response with one row whose elements carry the given
values. -/
def responseWith (ds : List Int) : DistanceMatrixResponse :=
  { rows := [{ elements := ds.map (fun d => { distance := some { value := d } }) }] }

/-- Mount, map load, a position fix at (37, -122), and a click on the search
button: one search request is outstanding. -/
def searchIssued : List Event :=
  [ Event.fetchLocationClick true,
    Event.load { id := 1 } true,
    Event.positionOk 0 { coords := { latitude := 37, longitude := -122 } },
    Event.findNearbyClick ]

/-- The scenario of the specification: the search answers `[A, B]` and the
chained distance query answers 1000 and 2500. -/
def searched : List Event :=
  searchIssued ++
  [ Event.searchResponse 0 (some [stationA, stationB]) PlacesServiceStatus.OK,
    Event.distanceResponse 0 (some (responseWith [1000, 2500])) DistanceMatrixStatus.OK ]

/-- Mount, map load, a position fix, and two clicks on the search button: two
search requests are outstanding. -/
def twoSearchesIssued : List Event :=
  searchIssued ++ [Event.findNearbyClick]

/-- Two outstanding searches answered in turn, the first `[A, B]`, the second
`[A]`: two chained distance requests are outstanding. -/
def twoSearchesAnswered : List Event :=
  twoSearchesIssued ++
  [ Event.searchResponse 0 (some [stationA, stationB]) PlacesServiceStatus.OK,
    Event.searchResponse 0 (some [stationA]) PlacesServiceStatus.OK ]

/-! ## Windows of events -/

/-- Whether the event is the answer to a search request that is outstanding in
`s`, so that the `nearbySearch` callback runs. -/
def searchDelivered (s : Sys) : Event → Bool
  | Event.searchResponse i _ _ => (s.searchPending[i]?).isSome
  | _ => false

/-- Whether the event is an `OK` answer to a distance request that is
outstanding in `s`, so that the callback reaches line 89. -/
def okDistanceDelivered (s : Sys) : Event → Bool
  | Event.distanceResponse i _ status =>
    (s.distancePending[i]?).isSome && decide (status = DistanceMatrixStatus.OK)
  | _ => false

/-- No search callback runs while the events are processed from `s` on. -/
def noSearchDelivered (s : Sys) : List Event → Bool
  | [] => true
  | e :: rest => !searchDelivered s e && noSearchDelivered (step s e) rest

/-- Neither a search callback nor the `OK` branch of a distance callback runs
while the events are processed from `s` on. -/
def noSearchNorDistanceDelivered (s : Sys) : List Event → Bool
  | [] => true
  | e :: rest =>
    !searchDelivered s e && !okDistanceDelivered s e
      && noSearchNorDistanceDelivered (step s e) rest

/-- Follows the distance request at position `pos` of the queue of `s` while
the events are processed: an answer to an earlier request moves it one place
to the front.  The result is its position afterwards, or `none` when a search
callback ran or the request itself was answered on the way. -/
def chainedPosition (s : Sys) (pos : Nat) : List Event → Option Nat
  | [] => some pos
  | e :: rest =>
    if searchDelivered s e then none
    else
      match e with
      | Event.distanceResponse i _ _ =>
        if i = pos then none
        else chainedPosition (step s e) (if i < pos then pos - 1 else pos) rest
      | _ => chainedPosition (step s e) pos rest

/-! ## Basic facts about `step` -/

theorem foldl_enqueue_view (effs : List Effect) (s : Sys) :
    (effs.foldl enqueue s).view = s.view := by
  induction effs generalizing s with
  | nil => rfl
  | cons eff rest ih =>
    rw [List.foldl_cons, ih]
    cases eff <;> rfl

theorem step_view (s : Sys) (e : Event) : (step s e).view = (react s e).view := rfl

theorem run_append (xs ys : List Event) (s : Sys) :
    run (xs ++ ys) s = run ys (run xs s) := by
  simp [run, List.foldl_append]

theorem run_snoc (xs : List Event) (e : Event) (s : Sys) :
    run (xs ++ [e]) s = step (run xs s) e := by
  simp [run, List.foldl_append]

/-! ## The search callback on an empty or failed result -/

/-- C2 (counterexample): after the scenario `[A, B]` with distances
`[1000, 2500]`, a second search that answers `ZERO_RESULTS` with an empty list
empties `stations` but leaves `distances = [1000, 2500]`. -/
theorem failed_search_keeps_distances :
    (step (run (searched ++ [Event.findNearbyClick]) Sys.initial)
        (Event.searchResponse 0 (some []) PlacesServiceStatus.ZERO_RESULTS)).view.stations = []
    ∧ (step (run (searched ++ [Event.findNearbyClick]) Sys.initial)
        (Event.searchResponse 0 (some []) PlacesServiceStatus.ZERO_RESULTS)).view.distances
      = [1000, 2500]
    ∧ (step (run (searched ++ [Event.findNearbyClick]) Sys.initial)
        (Event.searchResponse 0 (some []) PlacesServiceStatus.ZERO_RESULTS)).view.distances
      ≠ [] := by
  decide

/-- C2 (amended): when the `nearbySearch` callback receives a status other than
`OK` (whatever `results` is, `null` included), or status `OK` with an empty
list, it returns without throwing, sets `stations` to `[]`, leaves every other
cell, `distances` included, as it was, and only logs an error. -/
theorem nearbySearchCallback_no_results (env cur : State) (results : Option (List Station))
    (status : PlacesServiceStatus)
    (h : status ≠ PlacesServiceStatus.OK ∨ results = some []) :
    nearbySearchCallback env cur results status
      = Except.ok ({ cur with stations := [] },
          [Effect.consoleError "No electric vehicle charging stations found"]) := by
  rcases h with h | h
  · simp [nearbySearchCallback, h]
  · subst h
    by_cases hs : status = PlacesServiceStatus.OK <;> simp [nearbySearchCallback, hs]

theorem nearbySearchCallback_no_results_witness :
    (PlacesServiceStatus.REQUEST_DENIED ≠ PlacesServiceStatus.OK
      ∨ (none : Option (List Station)) = some [])
    ∧ nearbySearchCallback State.initial
        { State.initial with stations := [stationA], distances := [1000] } none
        PlacesServiceStatus.REQUEST_DENIED
      = Except.ok ({ State.initial with stations := [], distances := [1000] },
          [Effect.consoleError "No electric vehicle charging stations found"]) :=
  ⟨Or.inl (by decide),
   nearbySearchCallback_no_results State.initial
    { State.initial with stations := [stationA], distances := [1000] } none
    PlacesServiceStatus.REQUEST_DENIED (Or.inl (by decide))⟩

/-! ## Closing the info window -/

/-- C4 (counterexample): with A selected and its route drawn, closing the info
window clears `selectedStation` and keeps the route: `directionsResponse` is set
while `selectedStation` is not. -/
theorem close_keeps_route :
    (run (searched ++ [Event.markerClick 0,
        Event.directionsResponse 0 (some { id := 5 }) DirectionsStatus.OK,
        Event.infoWindowClose]) Sys.initial).view.selectedStation = none
    ∧ (run (searched ++ [Event.markerClick 0,
        Event.directionsResponse 0 (some { id := 5 }) DirectionsStatus.OK,
        Event.infoWindowClose]) Sys.initial).view.directionsResponse = some { id := 5 } := by
  decide

/-- C4 (amended): the close handler of the info window sets `selectedStation`
to none and leaves `directionsResponse`, `stations`, `distances`,
`currentLocation` and `map` unchanged; it issues no request and does not
throw. -/
theorem onCloseClick_frame (s : Sys) :
    (step s Event.infoWindowClose).view.selectedStation = none
    ∧ (step s Event.infoWindowClose).view.directionsResponse = s.view.directionsResponse
    ∧ (step s Event.infoWindowClose).view.stations = s.view.stations
    ∧ (step s Event.infoWindowClose).view.distances = s.view.distances
    ∧ (step s Event.infoWindowClose).view.currentLocation = s.view.currentLocation
    ∧ (step s Event.infoWindowClose).view.map = s.view.map
    ∧ (react s Event.infoWindowClose).effects = []
    ∧ (react s Event.infoWindowClose).thrown = none
    ∧ onCloseClick s.view = { s.view with selectedStation := none } := by
  refine ⟨rfl, rfl, rfl, rfl, rfl, rfl, rfl, rfl, rfl⟩

/-! ## Clicking a marker -/

/-- C5: `handleStationClick(s, index)` sets `selectedStation` to `s`, sets
`directionsResponse` to none, leaves `stations`, `distances`, `currentLocation`
(and `map`) unchanged, and hands out exactly one directions request, with
origin `currentLocation`, destination `s.geometry.location` and mode
`DRIVING`. -/
theorem handleStationClick_spec (cur : State) (station : Station) (index : Nat) :
    handleStationClick cur station index
      = ({ cur with selectedStation := some station, directionsResponse := none },
         [Effect.route
           { origin := cur.currentLocation
             destination := station.geometry.location
             travelMode := TravelMode.DRIVING }])
    ∧ (handleStationClick cur station index).1.selectedStation = some station
    ∧ (handleStationClick cur station index).1.directionsResponse = none
    ∧ (handleStationClick cur station index).1.stations = cur.stations
    ∧ (handleStationClick cur station index).1.distances = cur.distances
    ∧ (handleStationClick cur station index).1.currentLocation = cur.currentLocation := by
  refine ⟨rfl, rfl, rfl, rfl, rfl, rfl⟩

/-! ## A directions response -/

/-- C3 (counterexample): B is clicked, then A, and then the `OK` answer to the
request made for B arrives.  The outstanding request at position 0 is the one
for B; before the answer no route is set; after it the route of B is shown
while A is selected. -/
theorem stale_route_is_shown :
    ((run (searched ++ [Event.markerClick 1, Event.markerClick 0]) Sys.initial).routePending[0]?).map
        (fun r => r.destination) = some stationB.geometry.location
    ∧ (run (searched ++ [Event.markerClick 1, Event.markerClick 0]) Sys.initial).view.selectedStation
      = some stationA
    ∧ (run (searched ++ [Event.markerClick 1, Event.markerClick 0]) Sys.initial).view.directionsResponse
      = none
    ∧ (step (run (searched ++ [Event.markerClick 1, Event.markerClick 0]) Sys.initial)
        (Event.directionsResponse 0 (some { id := 2 }) DirectionsStatus.OK)).view.selectedStation
      = some stationA
    ∧ (step (run (searched ++ [Event.markerClick 1, Event.markerClick 0]) Sys.initial)
        (Event.directionsResponse 0 (some { id := 2 }) DirectionsStatus.OK)).view.directionsResponse
      = some { id := 2 }
    ∧ (step (run (searched ++ [Event.markerClick 1, Event.markerClick 0]) Sys.initial)
        (Event.directionsResponse 0 (some { id := 2 }) DirectionsStatus.OK)).view
      ≠ (run (searched ++ [Event.markerClick 1, Event.markerClick 0]) Sys.initial).view := by
  decide

/-- C3 (amended): the answer to an outstanding directions request is applied
whatever station is selected and whatever destination the request had: with
status `OK` it sets `directionsResponse` to the result and changes no other
cell; with any other status it changes no cell at all. -/
theorem directions_response_unguarded (s : Sys) (i : Nat) (req : DirectionsRequest)
    (result : Option DirectionsResult) (status : DirectionsStatus)
    (h : s.routePending[i]? = some req) :
    (step s (Event.directionsResponse i result status)).view
      = (if status = DirectionsStatus.OK then { s.view with directionsResponse := result }
         else s.view)
    ∧ (react s (Event.directionsResponse i result status)).thrown = none := by
  by_cases hs : status = DirectionsStatus.OK <;>
    simp [step_view, react, h, directionsCallback, hs]

theorem directions_response_unguarded_witness :
    (run (searched ++ [Event.markerClick 1, Event.markerClick 0]) Sys.initial).routePending[0]?
      = some { origin := { lat := 37, lng := -122 }
               destination := stationB.geometry.location
               travelMode := TravelMode.DRIVING }
    ∧ (step (run (searched ++ [Event.markerClick 1, Event.markerClick 0]) Sys.initial)
        (Event.directionsResponse 0 (some { id := 2 }) DirectionsStatus.OK)).view
      = (if DirectionsStatus.OK = DirectionsStatus.OK then
          { (run (searched ++ [Event.markerClick 1, Event.markerClick 0]) Sys.initial).view with
            directionsResponse := some { id := 2 } }
         else (run (searched ++ [Event.markerClick 1, Event.markerClick 0]) Sys.initial).view)
    ∧ (react (run (searched ++ [Event.markerClick 1, Event.markerClick 0]) Sys.initial)
        (Event.directionsResponse 0 (some { id := 2 }) DirectionsStatus.OK)).thrown = none :=
  ⟨by decide,
   directions_response_unguarded
    (run (searched ++ [Event.markerClick 1, Event.markerClick 0]) Sys.initial) 0
    { origin := { lat := 37, lng := -122 }
      destination := stationB.geometry.location
      travelMode := TravelMode.DRIVING }
    (some { id := 2 }) DirectionsStatus.OK (by decide)⟩

/-! ## Location failures -/

/-- C8: running `fetchCurrentLocation` (geolocation present or absent) and the
geolocation error callback each leave every state cell as it was, so
`currentLocation` keeps its value (the initial `(0, 0)` on a fresh component);
neither issues a `panTo` and neither throws.  Without the capability only an
error is logged. -/
theorem location_failure_frame (s : Sys) (i : Nat) (geolocation : Bool) :
    (step s (Event.fetchLocationClick geolocation)).view = s.view
    ∧ (react s (Event.fetchLocationClick geolocation)).thrown = none
    ∧ (∀ m pos, Effect.panTo m pos ∉ (react s (Event.fetchLocationClick geolocation)).effects)
    ∧ fetchCurrentLocation s.view false
        = [Effect.consoleError "Geolocation not supported by this browser"]
    ∧ (step s (Event.positionFailed i)).view = s.view
    ∧ (react s (Event.positionFailed i)).thrown = none
    ∧ (∀ m pos, Effect.panTo m pos ∉ (react s (Event.positionFailed i)).effects)
    ∧ (step Sys.initial (Event.fetchLocationClick geolocation)).view.currentLocation
        = { lat := 0, lng := 0 }
    ∧ (step Sys.initial (Event.positionFailed i)).view.currentLocation
        = { lat := 0, lng := 0 } := by
  refine ⟨rfl, rfl, ?_, rfl, ?_, ?_, ?_, rfl, ?_⟩
  · intro m pos
    cases geolocation <;> simp [react, fetchCurrentLocation]
  · simp only [step_view, react]
    cases s.positionPending[i]? <;> rfl
  · simp only [react]
    cases s.positionPending[i]? <;> rfl
  · intro m pos
    simp only [react]
    cases s.positionPending[i]? <;> simp [positionError]
  · simp only [step_view, react]
    cases Sys.initial.positionPending[i]? <;> rfl

/-! ## The search callback on a non-empty result and the chained distance query -/

theorem elementValues_map (ds : List Int) :
    elementValues (ds.map (fun d => ({ distance := some { value := d } } :
      DistanceMatrixResponseElement))) = Except.ok ds := by
  induction ds with
  | nil => rfl
  | cons d rest ih => simp [elementValues, ih]

theorem length_pos_of_ne_nil_stations {R : List Station} (hR : R ≠ []) : 0 < R.length :=
  List.length_pos.mpr hR

theorem step_search_ok (s : Sys) (i : Nat) (p : PendingSearch) (R : List Station)
    (hp : s.searchPending[i]? = some p) (hR : R ≠ []) :
    step s (Event.searchResponse i (some R) PlacesServiceStatus.OK)
      = { view := { s.view with stations := R }
          positionPending := s.positionPending
          searchPending := s.searchPending.eraseIdx i
          distancePending := s.distancePending ++
            [{ origins := [p.env.currentLocation]
               destinations := R.map (fun station => station.geometry.location)
               travelMode := TravelMode.DRIVING }]
          routePending := s.routePending } := by
  have hlen : 0 < R.length := length_pos_of_ne_nil_stations hR
  simp [step, react, hp, nearbySearchCallback, hlen, calculateDistances, enqueue, consume]

theorem react_search_ok (s : Sys) (i : Nat) (p : PendingSearch) (R : List Station)
    (hp : s.searchPending[i]? = some p) (hR : R ≠ []) :
    react s (Event.searchResponse i (some R) PlacesServiceStatus.OK)
      = { view := { s.view with stations := R }
          effects := [Effect.getDistanceMatrix
            { origins := [p.env.currentLocation]
              destinations := R.map (fun station => station.geometry.location)
              travelMode := TravelMode.DRIVING }]
          thrown := none } := by
  have hlen : 0 < R.length := length_pos_of_ne_nil_stations hR
  simp [react, hp, nearbySearchCallback, hlen, calculateDistances]

/-- C7 (counterexample): after the scenario with distances `[1000, 2500]`, a
new search answers `[A]` and its chained distance query fails: `stations` is
`[A]` and `distances` is still `[1000, 2500]`, not empty. -/
theorem failed_distance_query_keeps_distances :
    (run (searched ++ [Event.findNearbyClick,
        Event.searchResponse 0 (some [stationA]) PlacesServiceStatus.OK,
        Event.distanceResponse 0 none DistanceMatrixStatus.UNKNOWN_ERROR]) Sys.initial).view.stations
      = [stationA]
    ∧ (run (searched ++ [Event.findNearbyClick,
        Event.searchResponse 0 (some [stationA]) PlacesServiceStatus.OK,
        Event.distanceResponse 0 none DistanceMatrixStatus.UNKNOWN_ERROR]) Sys.initial).view.distances
      = [1000, 2500]
    ∧ (run (searched ++ [Event.findNearbyClick,
        Event.searchResponse 0 (some [stationA]) PlacesServiceStatus.OK,
        Event.distanceResponse 0 none DistanceMatrixStatus.UNKNOWN_ERROR]) Sys.initial).view.distances
      ≠ [] := by
  decide

/-! ## The origin of the chained distance request -/

theorem foldl_enqueue_search_mem (effs : List Effect) (s : Sys) (p : PendingSearch)
    (h : p ∈ (effs.foldl enqueue s).searchPending) :
    p ∈ s.searchPending ∨ ∃ m, Effect.nearbySearch p.env m p.request ∈ effs := by
  induction effs generalizing s with
  | nil => exact Or.inl h
  | cons eff rest ih =>
    rw [List.foldl_cons] at h
    rcases ih _ h with h1 | ⟨m, hm⟩
    · cases eff with
      | nearbySearch env m request =>
        simp only [enqueue, List.mem_append, List.mem_singleton] at h1
        rcases h1 with h1 | h1
        · exact Or.inl h1
        · subst h1
          exact Or.inr ⟨m, List.mem_cons_self _ _⟩
      | consoleError _ => exact Or.inl h1
      | fitBounds _ => exact Or.inl h1
      | panTo _ _ => exact Or.inl h1
      | getCurrentPosition _ => exact Or.inl h1
      | getDistanceMatrix _ => exact Or.inl h1
      | route _ => exact Or.inl h1
    · exact Or.inr ⟨m, List.mem_cons_of_mem _ hm⟩

theorem consume_search_mem (s : Sys) (e : Event) (p : PendingSearch)
    (h : p ∈ (consume s e).searchPending) : p ∈ s.searchPending := by
  cases e <;> first | exact h | exact List.mem_of_mem_eraseIdx h

theorem react_search_effect (s : Sys) (e : Event) (env : State) (m : MapHandle)
    (request : PlaceSearchRequest)
    (h : Effect.nearbySearch env m request ∈ (react s e).effects) :
    request.location = env.currentLocation := by
  cases e with
  | load m0 geolocation =>
    simp only [react, onLoad, mapEffect, fetchCurrentLocation] at h
    split at h <;> cases geolocation <;> simp at h
  | unmount geolocation =>
    simp only [react, onUnmount, mapEffect, fetchCurrentLocation] at h
    split at h <;> cases geolocation <;> simp at h
  | fetchLocationClick geolocation =>
    cases geolocation <;> simp [react, fetchCurrentLocation] at h
  | positionOk i position =>
    simp only [react] at h
    split at h
    · simp at h
    · simp only [positionSuccess] at h
      split at h <;> simp at h
  | positionFailed i =>
    simp only [react] at h
    split at h <;> simp [positionError] at h
  | findNearbyClick =>
    simp only [react, fetchNearbyStations] at h
    split at h
    · simp at h
    · simp only [List.mem_singleton, Effect.nearbySearch.injEq] at h
      obtain ⟨h1, -, h3⟩ := h
      subst h1 h3
      rfl
  | searchResponse i results status =>
    simp only [react] at h
    split at h
    · simp at h
    · split at h
      · simp at h
      · rename_i r hr
        simp only [nearbySearchCallback] at hr
        split at hr
        · split at hr
          · simp at hr
          · split at hr
            · simp only [Except.ok.injEq] at hr
              subst hr
              simp [calculateDistances] at h
            · simp only [Except.ok.injEq] at hr
              subst hr
              simp at h
        · simp only [Except.ok.injEq] at hr
          subst hr
          simp at h
  | distanceResponse i response status =>
    simp only [react] at h
    split at h
    · simp at h
    · split at h <;> simp at h
  | markerClick index =>
    simp only [react] at h
    split at h <;> simp [handleStationClick, getDirections] at h
  | directionsResponse i result status =>
    simp only [react] at h
    split at h
    · simp at h
    · simp only [directionsCallback] at h
      split at h <;> simp at h
  | infoWindowClose => simp [react] at h

theorem step_search_closure (s : Sys) (e : Event)
    (h : ∀ p ∈ s.searchPending, p.request.location = p.env.currentLocation) :
    ∀ p ∈ (step s e).searchPending, p.request.location = p.env.currentLocation := by
  intro p hp
  have hp2 : p ∈ ((react s e).effects.foldl enqueue (consume s e)).searchPending := hp
  rcases foldl_enqueue_search_mem _ _ _ hp2 with h1 | ⟨m, hm⟩
  · exact h p (consume_search_mem s e p h1)
  · exact react_search_effect s e p.env m p.request hm

theorem run_search_closure (events : List Event) :
    ∀ p ∈ (run events Sys.initial).searchPending,
      p.request.location = p.env.currentLocation := by
  induction events using List.reverseRecOn with
  | nil => intro p hp; simp [run, Sys.initial] at hp
  | append_singleton xs e ih =>
    rw [run_snoc]
    exact step_search_closure _ e ih

/-- C9: in every reachable state, when an outstanding search is answered `OK`
with a non-empty list `R`, the callback hands out exactly one distance-matrix
request; its destinations are `R` mapped to `station.geometry.location` (same
length and order as `R`), its single origin is the location the search request
was made with, and the request is the same whatever the `stations` cell holds
at that time. -/
theorem chained_request_from_argument (events : List Event) (i : Nat) (p : PendingSearch)
    (R stale : List Station)
    (hp : (run events Sys.initial).searchPending[i]? = some p) (hR : R ≠ []) :
    (react (run events Sys.initial)
        (Event.searchResponse i (some R) PlacesServiceStatus.OK)).effects
      = [Effect.getDistanceMatrix
          { origins := [p.request.location]
            destinations := R.map (fun station => station.geometry.location)
            travelMode := TravelMode.DRIVING }]
    ∧ (R.map (fun station => station.geometry.location)).length = R.length
    ∧ (∀ k (hk : k < R.length),
        (R.map (fun station => station.geometry.location))[k]?
          = some (R.get ⟨k, hk⟩).geometry.location)
    ∧ (react { run events Sys.initial with
                view := { (run events Sys.initial).view with stations := stale } }
        (Event.searchResponse i (some R) PlacesServiceStatus.OK)).effects
      = (react (run events Sys.initial)
        (Event.searchResponse i (some R) PlacesServiceStatus.OK)).effects := by
  have hloc : p.request.location = p.env.currentLocation :=
    run_search_closure events p (List.getElem?_mem hp)
  refine ⟨?_, by simp, ?_, ?_⟩
  · rw [react_search_ok _ i p R hp hR, hloc]
  · intro k hk
    simp [List.getElem?_map, List.getElem?_eq_getElem hk]
  · rw [react_search_ok _ i p R hp hR]
    rw [react_search_ok _ i p R (by simpa using hp) hR]

theorem chained_request_from_argument_witness :
    (run searchIssued Sys.initial).searchPending[0]?
      = some { env := (run searchIssued Sys.initial).view
               request := { location := { lat := 37, lng := -122 }, radius := "5000",
                            type := ["electric_vehicle_charging_station"] } }
    ∧ (react (run searchIssued Sys.initial)
        (Event.searchResponse 0 (some [stationA, stationB]) PlacesServiceStatus.OK)).effects
      = [Effect.getDistanceMatrix
          { origins := [{ lat := 37, lng := -122 }]
            destinations := [stationA, stationB].map (fun station => station.geometry.location)
            travelMode := TravelMode.DRIVING }] :=
  ⟨by decide,
   (chained_request_from_argument searchIssued 0
    { env := (run searchIssued Sys.initial).view
      request := { location := { lat := 37, lng := -122 }, radius := "5000",
                   type := ["electric_vehicle_charging_station"] } }
    [stationA, stationB] [] (by decide) (by decide)).1⟩

/-! ## Where `distances` comes from -/

theorem nearbySearchCallback_distances (env cur : State) (results : Option (List Station))
    (status : PlacesServiceStatus) (r : State × List Effect)
    (h : nearbySearchCallback env cur results status = Except.ok r) :
    r.1.distances = cur.distances := by
  simp only [nearbySearchCallback] at h
  split at h
  · split at h
    · simp at h
    · split at h <;>
      · simp only [Except.ok.injEq] at h
        subst h
        rfl
  · simp only [Except.ok.injEq] at h
    subst h
    rfl

theorem react_distances (s : Sys) (e : Event) :
    (react s e).view.distances = s.view.distances
    ∨ ∃ i response row,
        e = Event.distanceResponse i (some response) DistanceMatrixStatus.OK
        ∧ s.distancePending[i]? ≠ none
        ∧ response.rows.head? = some row
        ∧ elementValues row.elements = Except.ok (react s e).view.distances := by
  cases e with
  | load m geolocation => exact Or.inl rfl
  | unmount geolocation => exact Or.inl rfl
  | fetchLocationClick geolocation => exact Or.inl rfl
  | positionOk i position =>
    left
    simp only [react]
    split <;> rfl
  | positionFailed i =>
    left
    simp only [react]
    split <;> rfl
  | findNearbyClick => exact Or.inl rfl
  | searchResponse i results status =>
    left
    simp only [react]
    split
    · rfl
    · split
      · rfl
      · rename_i r hr
        exact nearbySearchCallback_distances _ _ _ _ r hr
  | distanceResponse i response status =>
    simp only [react]
    split
    · exact Or.inl rfl
    · rename_i req hreq
      split
      · exact Or.inl rfl
      · rename_i v hv
        simp only [distanceMatrixCallback] at hv
        split at hv
        · rename_i hs
          subst hs
          split at hv
          · simp at hv
          · rename_i resp
            split at hv
            · simp at hv
            · rename_i row rest hrows
              split at hv
              · simp at hv
              · rename_i vs hvs
                simp only [Except.ok.injEq] at hv
                subst hv
                right
                refine ⟨i, resp, row, rfl, ?_, ?_, hvs⟩
                · rw [hreq]; simp
                · rw [hrows]; rfl
        · simp only [Except.ok.injEq] at hv
          subst hv
          exact Or.inl rfl
  | markerClick index =>
    left
    simp only [react]
    split <;> rfl
  | directionsResponse i result status =>
    left
    simp only [react]
    split
    · rfl
    · simp only [directionsCallback]
      split <;> rfl
  | infoWindowClose => exact Or.inl rfl

/-- C1 (counterexample): after the scenario with distances `[1000, 2500]`, a
second search that answers `[A]` gives a state with one station and two
distances: `distances` is neither empty nor as long as `stations`. -/
theorem distances_outlive_stations :
    (run (searched ++ [Event.findNearbyClick,
        Event.searchResponse 0 (some [stationA]) PlacesServiceStatus.OK]) Sys.initial).view.stations
      = [stationA]
    ∧ (run (searched ++ [Event.findNearbyClick,
        Event.searchResponse 0 (some [stationA]) PlacesServiceStatus.OK]) Sys.initial).view.distances
      = [1000, 2500]
    ∧ ¬ ((run (searched ++ [Event.findNearbyClick,
          Event.searchResponse 0 (some [stationA]) PlacesServiceStatus.OK])
            Sys.initial).view.distances = []
        ∨ (run (searched ++ [Event.findNearbyClick,
          Event.searchResponse 0 (some [stationA]) PlacesServiceStatus.OK])
            Sys.initial).view.distances.length
          = (run (searched ++ [Event.findNearbyClick,
          Event.searchResponse 0 (some [stationA]) PlacesServiceStatus.OK])
            Sys.initial).view.stations.length) := by
  decide

/-- C1 (amended): in every state reachable from the initial state by any
sequence of events, `distances` is either empty or exactly the list of distance
values of the first row of an `OK` distance-matrix response that answered an
outstanding request earlier in the sequence.  The cell is never cleared and
never partially written: every further event `e` either leaves `distances`
exactly as it was or is such an `OK` answer, which replaces it wholesale by the
values of its first row; in particular no search answer changes `distances`,
so its length is not tied to that of `stations`. -/
theorem distances_empty_or_delivered (events : List Event) (e : Event) :
    ((run events Sys.initial).view.distances = []
      ∨ ∃ before after i response row,
          events = before ++ Event.distanceResponse i (some response) DistanceMatrixStatus.OK
            :: after
          ∧ (run before Sys.initial).distancePending[i]? ≠ none
          ∧ response.rows.head? = some row
          ∧ elementValues row.elements = Except.ok (run events Sys.initial).view.distances)
    ∧ ((run (events ++ [e]) Sys.initial).view.distances
          = (run events Sys.initial).view.distances
      ∨ ∃ i response row,
          e = Event.distanceResponse i (some response) DistanceMatrixStatus.OK
          ∧ (run events Sys.initial).distancePending[i]? ≠ none
          ∧ response.rows.head? = some row
          ∧ elementValues row.elements
              = Except.ok (run (events ++ [e]) Sys.initial).view.distances)
    ∧ (∀ i results status,
        (run (events ++ [Event.searchResponse i results status]) Sys.initial).view.distances
          = (run events Sys.initial).view.distances) := by
  refine ⟨?_, ?_, ?_⟩
  · clear e
    induction events using List.reverseRecOn with
    | nil => exact Or.inl rfl
    | append_singleton xs e ih =>
      rw [run_snoc, step_view]
      rcases react_distances (run xs Sys.initial) e with
        h | ⟨i, response, row, he, hpend, hrow, hval⟩
      · rw [h]
        rcases ih with ih | ⟨before, after, i, response, row, hev, hpend, hrow, hval⟩
        · exact Or.inl ih
        · right
          refine ⟨before, after ++ [e], i, response, row, ?_, hpend, hrow, hval⟩
          rw [hev]
          simp
      · right
        refine ⟨xs, [], i, response, row, ?_, hpend, hrow, hval⟩
        rw [he]
  · rw [run_snoc, step_view]
    exact react_distances (run events Sys.initial) e
  · intro i results status
    rw [run_snoc, step_view]
    rcases react_distances (run events Sys.initial) (Event.searchResponse i results status) with
      h | ⟨_, _, _, he, -, -, -⟩
    · exact h
    · cases he

/-! ## Events that are not a delivered search answer -/

theorem run_cons (e : Event) (rest : List Event) (s : Sys) :
    run (e :: rest) s = run rest (step s e) := rfl

theorem step_of_not_search (s : Sys) (e : Event) (h : searchDelivered s e = false) :
    (step s e).view.stations = s.view.stations
    ∧ (step s e).distancePending = (consume s e).distancePending := by
  cases e with
  | load m geolocation =>
    cases geolocation <;>
      by_cases hm : s.view.map = some m <;>
      simp [step, react, onLoad, mapEffect, fetchCurrentLocation, enqueue, consume, hm]
  | unmount geolocation =>
    cases geolocation <;>
      by_cases hm : s.view.map = none <;>
      simp [step, react, onUnmount, mapEffect, fetchCurrentLocation, enqueue, consume, hm]
  | fetchLocationClick geolocation =>
    cases geolocation <;> simp [step, react, fetchCurrentLocation, enqueue, consume]
  | positionOk i position =>
    cases hp : s.positionPending[i]? with
    | none => simp [step, react, hp, consume]
    | some env =>
      cases hm : env.map <;>
        simp [step, react, hp, positionSuccess, hm, enqueue, consume]
  | positionFailed i =>
    cases hp : s.positionPending[i]? <;>
      simp [step, react, hp, positionError, enqueue, consume]
  | findNearbyClick =>
    cases hm : s.view.map <;>
      simp [step, react, fetchNearbyStations, hm, enqueue, consume]
  | searchResponse i results status =>
    have hp : s.searchPending[i]? = none := by
      simpa [searchDelivered] using h
    simp [step, react, hp, consume]
  | distanceResponse i response status =>
    cases hp : s.distancePending[i]? with
    | none => simp [step, react, hp, consume]
    | some req =>
      cases hc : distanceMatrixCallback s.view response status with
      | error err => simp [step, react, hp, hc, consume]
      | ok v =>
        have hv : v.stations = s.view.stations := by
          simp only [distanceMatrixCallback] at hc
          split at hc
          · split at hc
            · simp at hc
            · split at hc
              · simp at hc
              · split at hc
                · simp at hc
                · simp only [Except.ok.injEq] at hc
                  subst hc
                  rfl
          · simp only [Except.ok.injEq] at hc
            subst hc
            rfl
        simp [step, react, hp, hc, consume, hv]
  | markerClick index =>
    cases hp : s.view.stations[index]? <;>
      simp [step, react, hp, handleStationClick, clearDirections, getDirections, enqueue, consume]
  | directionsResponse i result status =>
    cases hp : s.routePending[i]? with
    | none => simp [step, react, hp, consume]
    | some req =>
      by_cases hs : status = DirectionsStatus.OK <;>
        simp [step, react, hp, directionsCallback, hs, enqueue, consume]
  | infoWindowClose => simp [step, react, onCloseClick, consume]

theorem consume_distancePending (s : Sys) (e : Event) :
    (consume s e).distancePending
      = (match e with
         | Event.distanceResponse i _ _ => s.distancePending.eraseIdx i
         | _ => s.distancePending) := by
  cases e <;> rfl

theorem chainedPosition_spec (mid : List Event) (s : Sys) (pos j : Nat)
    (req : DistanceMatrixRequest) (R : List Station)
    (hst : s.view.stations = R) (hreq : s.distancePending[pos]? = some req)
    (hpos : chainedPosition s pos mid = some j) :
    (run mid s).view.stations = R ∧ (run mid s).distancePending[j]? = some req := by
  induction mid generalizing s pos with
  | nil =>
    simp only [chainedPosition, Option.some.injEq] at hpos
    subst hpos
    exact ⟨hst, hreq⟩
  | cons e rest ih =>
    rw [run_cons]
    cases hsd : searchDelivered s e with
    | true => simp [chainedPosition, hsd] at hpos
    | false =>
      obtain ⟨h1, h2⟩ := step_of_not_search s e hsd
      rw [consume_distancePending] at h2
      cases e with
      | distanceResponse i response status =>
        simp only [chainedPosition, hsd] at hpos
        by_cases hi : i = pos
        · simp [hi] at hpos
        · simp only [hi, if_false, Bool.false_eq_true] at hpos
          refine ih (step s (Event.distanceResponse i response status)) _ (h1.trans hst) ?_ hpos
          rw [h2]
          simp only
          rw [List.getElem?_eraseIdx]
          by_cases hlt : i < pos
          · have h3 : ¬ (pos - 1 < i) := by omega
            have h4 : pos - 1 + 1 = pos := by omega
            simp [hlt, h3, h4, hreq]
          · have h3 : pos < i := by omega
            simp [hlt, h3, hreq]
      | load m g =>
        simp only [chainedPosition, hsd] at hpos
        exact ih _ pos (h1.trans hst) (by rw [h2]; exact hreq) hpos
      | unmount g =>
        simp only [chainedPosition, hsd] at hpos
        exact ih _ pos (h1.trans hst) (by rw [h2]; exact hreq) hpos
      | fetchLocationClick g =>
        simp only [chainedPosition, hsd] at hpos
        exact ih _ pos (h1.trans hst) (by rw [h2]; exact hreq) hpos
      | positionOk i p =>
        simp only [chainedPosition, hsd] at hpos
        exact ih _ pos (h1.trans hst) (by rw [h2]; exact hreq) hpos
      | positionFailed i =>
        simp only [chainedPosition, hsd] at hpos
        exact ih _ pos (h1.trans hst) (by rw [h2]; exact hreq) hpos
      | findNearbyClick =>
        simp only [chainedPosition, hsd] at hpos
        exact ih _ pos (h1.trans hst) (by rw [h2]; exact hreq) hpos
      | searchResponse i r st =>
        simp only [chainedPosition, hsd] at hpos
        exact ih _ pos (h1.trans hst) (by rw [h2]; exact hreq) hpos
      | markerClick i =>
        simp only [chainedPosition, hsd] at hpos
        exact ih _ pos (h1.trans hst) (by rw [h2]; exact hreq) hpos
      | directionsResponse i r st =>
        simp only [chainedPosition, hsd] at hpos
        exact ih _ pos (h1.trans hst) (by rw [h2]; exact hreq) hpos
      | infoWindowClose =>
        simp only [chainedPosition, hsd] at hpos
        exact ih _ pos (h1.trans hst) (by rw [h2]; exact hreq) hpos

theorem step_distances_of_not_ok (s : Sys) (e : Event)
    (h : okDistanceDelivered s e = false) :
    (step s e).view.distances = s.view.distances := by
  rcases react_distances s e with h1 | ⟨i, response, row, he, hpend, -, -⟩
  · exact h1
  · subst he
    cases hp : s.distancePending[i]? with
    | none => exact absurd hp hpend
    | some req => simp [okDistanceDelivered, hp] at h

theorem step_selected (s : Sys) (e : Event) (h : searchDelivered s e = false)
    (hsel : ∀ st, s.view.selectedStation = some st → st ∈ s.view.stations) :
    ∀ st, (step s e).view.selectedStation = some st → st ∈ (step s e).view.stations := by
  intro st hst
  rw [(step_of_not_search s e h).1]
  rw [step_view] at hst
  cases e with
  | load m geolocation => exact hsel st hst
  | unmount geolocation => exact hsel st hst
  | fetchLocationClick geolocation => exact hsel st hst
  | positionOk i position =>
    simp only [react] at hst
    split at hst <;> exact hsel st hst
  | positionFailed i =>
    simp only [react] at hst
    split at hst <;> exact hsel st hst
  | findNearbyClick => exact hsel st hst
  | searchResponse i results status =>
    have hp : s.searchPending[i]? = none := by
      simpa [searchDelivered] using h
    simp only [react, hp] at hst
    exact hsel st hst
  | distanceResponse i response status =>
    simp only [react] at hst
    split at hst
    · exact hsel st hst
    · split at hst
      · exact hsel st hst
      · rename_i v hv
        simp only [distanceMatrixCallback] at hv
        split at hv
        · split at hv
          · simp at hv
          · split at hv
            · simp at hv
            · split at hv
              · simp at hv
              · simp only [Except.ok.injEq] at hv
                subst hv
                exact hsel st hst
        · simp only [Except.ok.injEq] at hv
          subst hv
          exact hsel st hst
  | markerClick index =>
    simp only [react] at hst
    split at hst
    · exact hsel st hst
    · rename_i station hstation
      simp only [handleStationClick, clearDirections, Option.some.injEq] at hst
      subst hst
      exact List.getElem?_mem hstation
  | directionsResponse i result status =>
    simp only [react] at hst
    split at hst
    · exact hsel st hst
    · simp only [directionsCallback] at hst
      split at hst <;> exact hsel st hst
  | infoWindowClose => simp [react, onCloseClick] at hst

theorem run_selected (events : List Event) (s : Sys)
    (h : noSearchDelivered s events = true)
    (hsel : ∀ st, s.view.selectedStation = some st → st ∈ s.view.stations) :
    ∀ st, (run events s).view.selectedStation = some st → st ∈ (run events s).view.stations := by
  induction events generalizing s with
  | nil => exact hsel
  | cons e rest ih =>
    simp only [noSearchDelivered, Bool.and_eq_true, Bool.not_eq_true'] at h
    rw [run_cons]
    exact ih (step s e) h.2 (step_selected s e h.1 hsel)

theorem run_calm (events : List Event) (s : Sys)
    (h : noSearchNorDistanceDelivered s events = true) :
    noSearchDelivered s events = true
    ∧ (run events s).view.stations = s.view.stations
    ∧ (run events s).view.distances = s.view.distances := by
  induction events generalizing s with
  | nil => exact ⟨rfl, rfl, rfl⟩
  | cons e rest ih =>
    simp only [noSearchNorDistanceDelivered, Bool.and_eq_true, Bool.not_eq_true'] at h
    obtain ⟨⟨h1, h2⟩, h3⟩ := h
    obtain ⟨i1, i2, i3⟩ := ih (step s e) h3
    rw [run_cons]
    refine ⟨by simp [noSearchDelivered, h1, i1], ?_, ?_⟩
    · rw [i2, (step_of_not_search s e h1).1]
    · rw [i3, step_distances_of_not_ok s e h2]

theorem chainedPosition_noSearch (mid : List Event) (s : Sys) (pos j : Nat)
    (hpos : chainedPosition s pos mid = some j) : noSearchDelivered s mid = true := by
  induction mid generalizing s pos with
  | nil => rfl
  | cons e rest ih =>
    cases hsd : searchDelivered s e with
    | true => simp [chainedPosition, hsd] at hpos
    | false =>
      simp only [noSearchDelivered, hsd, Bool.not_false, Bool.true_and]
      cases e with
      | distanceResponse i response status =>
        simp only [chainedPosition, hsd] at hpos
        by_cases hi : i = pos
        · simp [hi] at hpos
        · simp only [hi, if_false, Bool.false_eq_true] at hpos
          exact ih _ _ hpos
      | load m g => simp only [chainedPosition, hsd] at hpos; exact ih _ _ hpos
      | unmount g => simp only [chainedPosition, hsd] at hpos; exact ih _ _ hpos
      | fetchLocationClick g => simp only [chainedPosition, hsd] at hpos; exact ih _ _ hpos
      | positionOk i p => simp only [chainedPosition, hsd] at hpos; exact ih _ _ hpos
      | positionFailed i => simp only [chainedPosition, hsd] at hpos; exact ih _ _ hpos
      | findNearbyClick => simp only [chainedPosition, hsd] at hpos; exact ih _ _ hpos
      | searchResponse i r st => simp only [chainedPosition, hsd] at hpos; exact ih _ _ hpos
      | markerClick i => simp only [chainedPosition, hsd] at hpos; exact ih _ _ hpos
      | directionsResponse i r st => simp only [chainedPosition, hsd] at hpos; exact ih _ _ hpos
      | infoWindowClose => simp only [chainedPosition, hsd] at hpos; exact ih _ _ hpos

theorem step_distance_ok (s : Sys) (j : Nat) (req : DistanceMatrixRequest)
    (response : DistanceMatrixResponse) (row : DistanceMatrixResponseRow) (ds : List Int)
    (hj : s.distancePending[j]? = some req)
    (hrow : response.rows.head? = some row)
    (hel : row.elements = ds.map (fun d => { distance := some { value := d } })) :
    react s (Event.distanceResponse j (some response) DistanceMatrixStatus.OK)
      = { view := { s.view with distances := ds }, effects := [], thrown := none } := by
  obtain ⟨rows⟩ := response
  cases rows with
  | nil => simp at hrow
  | cons r rest =>
    simp only [List.head?_cons, Option.some.injEq] at hrow
    subst hrow
    simp [react, hj, distanceMatrixCallback, hel, elementValues_map]

theorem window_state (s : Sys) (i : Nat) (p : PendingSearch) (R : List Station)
    (mid : List Event) (j : Nat)
    (hp : s.searchPending[i]? = some p) (hR : R ≠ [])
    (hmid : chainedPosition (step s (Event.searchResponse i (some R) PlacesServiceStatus.OK))
      s.distancePending.length mid = some j) :
    (run mid (step s (Event.searchResponse i (some R) PlacesServiceStatus.OK))).view.stations = R
    ∧ (run mid (step s (Event.searchResponse i (some R)
        PlacesServiceStatus.OK))).distancePending[j]?
      = some { origins := [p.env.currentLocation]
               destinations := R.map (fun station => station.geometry.location)
               travelMode := TravelMode.DRIVING } := by
  refine chainedPosition_spec mid _ s.distancePending.length j _ R ?_ ?_ hmid
  · rw [step_search_ok s i p R hp hR]
  · rw [step_search_ok s i p R hp hR]
    simp

/-! ## The chained distance answer, with other events in between -/

/-- C6 (counterexample): two searches are outstanding; the first is answered
`[A, B]`, the second `[A]`, and then the request chained to the `[A, B]` answer
(position 0 of the queue, destinations the locations of A and B) is answered
`OK` with the values 1000 and 2500.  The component has `stations = [A]` and
`distances = [1000, 2500]`: `stations` is not the result list of that search
and the two lengths differ. -/
theorem interleaved_search_breaks_alignment :
    ((run twoSearchesAnswered Sys.initial).distancePending[0]?).map (fun r => r.destinations)
      = some [stationA.geometry.location, stationB.geometry.location]
    ∧ (step (run twoSearchesAnswered Sys.initial)
        (Event.distanceResponse 0 (some (responseWith [1000, 2500]))
          DistanceMatrixStatus.OK)).view.stations = [stationA]
    ∧ (step (run twoSearchesAnswered Sys.initial)
        (Event.distanceResponse 0 (some (responseWith [1000, 2500]))
          DistanceMatrixStatus.OK)).view.distances = [1000, 2500]
    ∧ (step (run twoSearchesAnswered Sys.initial)
        (Event.distanceResponse 0 (some (responseWith [1000, 2500]))
          DistanceMatrixStatus.OK)).view.stations ≠ [stationA, stationB]
    ∧ (step (run twoSearchesAnswered Sys.initial)
        (Event.distanceResponse 0 (some (responseWith [1000, 2500]))
          DistanceMatrixStatus.OK)).view.distances.length
      ≠ (step (run twoSearchesAnswered Sys.initial)
        (Event.distanceResponse 0 (some (responseWith [1000, 2500]))
          DistanceMatrixStatus.OK)).view.stations.length := by
  decide

/-- C6 (amended): an outstanding search is answered `OK` with a non-empty list
`R`; then any events `mid` follow during which no search callback runs and the
chained request is not answered (`chainedPosition` gives its position `j` in
the queue afterwards); then the chained request is answered `OK` with a first
row of one element per station, carrying the values `ds` in order.  The
resulting state has `stations = R` and `distances = ds`, hence lists of equal
length, and nothing is thrown. -/
theorem search_then_chained_distances (s : Sys) (i : Nat) (p : PendingSearch)
    (R : List Station) (mid : List Event) (j : Nat) (ds : List Int)
    (response : DistanceMatrixResponse) (row : DistanceMatrixResponseRow)
    (hp : s.searchPending[i]? = some p) (hR : R ≠ [])
    (hmid : chainedPosition (step s (Event.searchResponse i (some R) PlacesServiceStatus.OK))
      s.distancePending.length mid = some j)
    (hrow : response.rows.head? = some row)
    (hel : row.elements = ds.map (fun d => { distance := some { value := d } }))
    (hlen : ds.length = R.length) :
    (step s (Event.searchResponse i (some R) PlacesServiceStatus.OK)).distancePending[
        s.distancePending.length]?
      = some { origins := [p.env.currentLocation]
               destinations := R.map (fun station => station.geometry.location)
               travelMode := TravelMode.DRIVING }
    ∧ (run mid (step s (Event.searchResponse i (some R)
        PlacesServiceStatus.OK))).distancePending[j]?
      = some { origins := [p.env.currentLocation]
               destinations := R.map (fun station => station.geometry.location)
               travelMode := TravelMode.DRIVING }
    ∧ (step (run mid (step s (Event.searchResponse i (some R) PlacesServiceStatus.OK)))
        (Event.distanceResponse j (some response) DistanceMatrixStatus.OK)).view.stations = R
    ∧ (step (run mid (step s (Event.searchResponse i (some R) PlacesServiceStatus.OK)))
        (Event.distanceResponse j (some response) DistanceMatrixStatus.OK)).view.distances = ds
    ∧ (step (run mid (step s (Event.searchResponse i (some R) PlacesServiceStatus.OK)))
        (Event.distanceResponse j (some response)
          DistanceMatrixStatus.OK)).view.distances.length
      = (step (run mid (step s (Event.searchResponse i (some R) PlacesServiceStatus.OK)))
        (Event.distanceResponse j (some response)
          DistanceMatrixStatus.OK)).view.stations.length
    ∧ (react (run mid (step s (Event.searchResponse i (some R) PlacesServiceStatus.OK)))
        (Event.distanceResponse j (some response) DistanceMatrixStatus.OK)).thrown = none := by
  obtain ⟨hst, hreq⟩ := window_state s i p R mid j hp hR hmid
  have hre := step_distance_ok _ j _ response row ds hreq hrow hel
  refine ⟨?_, hreq, ?_, ?_, ?_, ?_⟩
  · rw [step_search_ok s i p R hp hR]
    simp
  · rw [step_view, hre]
    exact hst
  · rw [step_view, hre]
  · rw [step_view, hre]
    simp only
    rw [hst, hlen]
  · rw [hre]

theorem search_then_chained_distances_witness :
    (run twoSearchesIssued Sys.initial).searchPending[1]?
      = some { env := (run searchIssued Sys.initial).view
               request := { location := { lat := 37, lng := -122 }, radius := "5000",
                            type := ["electric_vehicle_charging_station"] } }
    ∧ chainedPosition
        (step (run twoSearchesIssued Sys.initial)
          (Event.searchResponse 1 (some [stationA, stationB]) PlacesServiceStatus.OK))
        (run twoSearchesIssued Sys.initial).distancePending.length
        [Event.markerClick 1, Event.directionsResponse 0 none DirectionsStatus.NOT_FOUND]
      = some 0
    ∧ (step (run [Event.markerClick 1,
          Event.directionsResponse 0 none DirectionsStatus.NOT_FOUND]
          (step (run twoSearchesIssued Sys.initial)
            (Event.searchResponse 1 (some [stationA, stationB]) PlacesServiceStatus.OK)))
        (Event.distanceResponse 0 (some (responseWith [1000, 2500]))
          DistanceMatrixStatus.OK)).view.stations = [stationA, stationB]
    ∧ (step (run [Event.markerClick 1,
          Event.directionsResponse 0 none DirectionsStatus.NOT_FOUND]
          (step (run twoSearchesIssued Sys.initial)
            (Event.searchResponse 1 (some [stationA, stationB]) PlacesServiceStatus.OK)))
        (Event.distanceResponse 0 (some (responseWith [1000, 2500]))
          DistanceMatrixStatus.OK)).view.distances = [1000, 2500] :=
  have h := search_then_chained_distances (run twoSearchesIssued Sys.initial) 1
    { env := (run searchIssued Sys.initial).view
      request := { location := { lat := 37, lng := -122 }, radius := "5000",
                   type := ["electric_vehicle_charging_station"] } }
    [stationA, stationB]
    [Event.markerClick 1, Event.directionsResponse 0 none DirectionsStatus.NOT_FOUND] 0
    [1000, 2500] (responseWith [1000, 2500])
    { elements := [{ distance := some { value := 1000 } }, { distance := some { value := 2500 } }] }
    (by decide) (by decide) (by decide) (by decide) (by decide) (by decide)
  ⟨by decide, by decide, h.2.2.1, h.2.2.2.1⟩

/-- C7 (amended): an outstanding search is answered `OK` with a non-empty list
`R`; then any events `mid` follow during which no search callback runs and the
chained request is not answered; then the chained request is answered with a
status other than `OK`.  That answer changes no state cell and throws nothing:
`stations` is still `R` and `distances` is what it was just before the answer.
The search answer itself does not change `distances`, so when no `OK` distance
answer is delivered in `mid` either, `distances` is what it was before the
search answer (empty only if it was empty then). -/
theorem search_then_failed_chained_distances (s : Sys) (i : Nat) (p : PendingSearch)
    (R : List Station) (mid : List Event) (j : Nat)
    (response : Option DistanceMatrixResponse) (status : DistanceMatrixStatus)
    (hp : s.searchPending[i]? = some p) (hR : R ≠ [])
    (hmid : chainedPosition (step s (Event.searchResponse i (some R) PlacesServiceStatus.OK))
      s.distancePending.length mid = some j)
    (hs : status ≠ DistanceMatrixStatus.OK) :
    (step (run mid (step s (Event.searchResponse i (some R) PlacesServiceStatus.OK)))
        (Event.distanceResponse j response status)).view
      = (run mid (step s (Event.searchResponse i (some R) PlacesServiceStatus.OK))).view
    ∧ (step (run mid (step s (Event.searchResponse i (some R) PlacesServiceStatus.OK)))
        (Event.distanceResponse j response status)).view.stations = R
    ∧ (step (run mid (step s (Event.searchResponse i (some R) PlacesServiceStatus.OK)))
        (Event.distanceResponse j response status)).view.distances
      = (run mid (step s (Event.searchResponse i (some R)
          PlacesServiceStatus.OK))).view.distances
    ∧ (step s (Event.searchResponse i (some R) PlacesServiceStatus.OK)).view.distances
      = s.view.distances
    ∧ (noSearchNorDistanceDelivered
          (step s (Event.searchResponse i (some R) PlacesServiceStatus.OK)) mid = true →
        (step (run mid (step s (Event.searchResponse i (some R) PlacesServiceStatus.OK)))
          (Event.distanceResponse j response status)).view.distances = s.view.distances)
    ∧ (react (run mid (step s (Event.searchResponse i (some R) PlacesServiceStatus.OK)))
        (Event.distanceResponse j response status)).thrown = none := by
  obtain ⟨hst, hreq⟩ := window_state s i p R mid j hp hR hmid
  have hre : react (run mid (step s (Event.searchResponse i (some R) PlacesServiceStatus.OK)))
      (Event.distanceResponse j response status)
      = { view := (run mid (step s (Event.searchResponse i (some R)
            PlacesServiceStatus.OK))).view
          effects := [], thrown := none } := by
    simp [react, hreq, distanceMatrixCallback, hs]
  have hsd : (step s (Event.searchResponse i (some R) PlacesServiceStatus.OK)).view.distances
      = s.view.distances := by
    rw [step_search_ok s i p R hp hR]
  refine ⟨?_, ?_, ?_, hsd, ?_, ?_⟩
  · rw [step_view, hre]
  · rw [step_view, hre]
    exact hst
  · rw [step_view, hre]
  · intro hcalm
    rw [step_view, hre]
    simp only
    rw [(run_calm mid _ hcalm).2.2, hsd]
  · rw [hre]

theorem search_then_failed_chained_distances_witness :
    (run twoSearchesIssued Sys.initial).searchPending[1]?
      = some { env := (run searchIssued Sys.initial).view
               request := { location := { lat := 37, lng := -122 }, radius := "5000",
                            type := ["electric_vehicle_charging_station"] } }
    ∧ chainedPosition
        (step (run twoSearchesIssued Sys.initial)
          (Event.searchResponse 1 (some [stationA, stationB]) PlacesServiceStatus.OK))
        (run twoSearchesIssued Sys.initial).distancePending.length
        [Event.markerClick 0, Event.infoWindowClose]
      = some 0
    ∧ (step (run [Event.markerClick 0, Event.infoWindowClose]
          (step (run twoSearchesIssued Sys.initial)
            (Event.searchResponse 1 (some [stationA, stationB]) PlacesServiceStatus.OK)))
        (Event.distanceResponse 0 none DistanceMatrixStatus.OVER_QUERY_LIMIT)).view.stations
      = [stationA, stationB]
    ∧ (step (run [Event.markerClick 0, Event.infoWindowClose]
          (step (run twoSearchesIssued Sys.initial)
            (Event.searchResponse 1 (some [stationA, stationB]) PlacesServiceStatus.OK)))
        (Event.distanceResponse 0 none DistanceMatrixStatus.OVER_QUERY_LIMIT)).view.distances
      = (run twoSearchesIssued Sys.initial).view.distances :=
  have h := search_then_failed_chained_distances (run twoSearchesIssued Sys.initial) 1
    { env := (run searchIssued Sys.initial).view
      request := { location := { lat := 37, lng := -122 }, radius := "5000",
                   type := ["electric_vehicle_charging_station"] } }
    [stationA, stationB] [Event.markerClick 0, Event.infoWindowClose] 0
    none DistanceMatrixStatus.OVER_QUERY_LIMIT
    (by decide) (by decide) (by decide) (by decide)
  ⟨by decide, by decide, h.2.1, h.2.2.2.2.1 (by decide)⟩

/-! ## The distance shown in the info window -/

theorem indexOf_bounds (xs : List Station) (x : Station) (h : x ∈ xs) :
    0 ≤ indexOf xs x ∧ indexOf xs x < xs.length
    ∧ indexOf xs x = ((List.indexOf x xs : Nat) : Int) := by
  have hidx : List.indexOf x xs < xs.length := List.indexOf_lt_length.mpr h
  refine ⟨by simp [indexOf, h], ?_, by simp [indexOf, h]⟩
  simp only [indexOf, h, if_true]
  exact_mod_cast hidx

theorem step_marker_click (s : Sys) (index : Nat) (station : Station)
    (h : s.view.stations[index]? = some station) :
    (step s (Event.markerClick index)).view
      = { s.view with selectedStation := some station, directionsResponse := none } := by
  simp [step_view, react, h, handleStationClick, clearDirections]

/-- C10 (counterexample): first, A is selected and then a search answers
`ZERO_RESULTS`: `selectedStation` is still A, `stations` is empty, `indexOf`
gives `-1` and the lookup in `distances` is undefined.  Second, a search
answers `[A, B]` and A is clicked before the chained distance answer arrives:
A is at index 0 of `stations`, `distances` is still empty and the lookup is
undefined. -/
theorem selection_outlives_stations :
    (run (searched ++ [Event.markerClick 0, Event.findNearbyClick,
        Event.searchResponse 0 none PlacesServiceStatus.ZERO_RESULTS])
          Sys.initial).view.selectedStation = some stationA
    ∧ stationA ∉ (run (searched ++ [Event.markerClick 0, Event.findNearbyClick,
        Event.searchResponse 0 none PlacesServiceStatus.ZERO_RESULTS])
          Sys.initial).view.stations
    ∧ indexOf (run (searched ++ [Event.markerClick 0, Event.findNearbyClick,
        Event.searchResponse 0 none PlacesServiceStatus.ZERO_RESULTS])
          Sys.initial).view.stations stationA = -1
    ∧ infoWindowDistance (run (searched ++ [Event.markerClick 0, Event.findNearbyClick,
        Event.searchResponse 0 none PlacesServiceStatus.ZERO_RESULTS])
          Sys.initial).view = none
    ∧ (run (searchIssued ++
        [Event.searchResponse 0 (some [stationA, stationB]) PlacesServiceStatus.OK,
         Event.markerClick 0]) Sys.initial).view.selectedStation = some stationA
    ∧ indexOf (run (searchIssued ++
        [Event.searchResponse 0 (some [stationA, stationB]) PlacesServiceStatus.OK,
         Event.markerClick 0]) Sys.initial).view.stations stationA = 0
    ∧ (run (searchIssued ++
        [Event.searchResponse 0 (some [stationA, stationB]) PlacesServiceStatus.OK,
         Event.markerClick 0]) Sys.initial).view.distances = []
    ∧ infoWindowDistance (run (searchIssued ++
        [Event.searchResponse 0 (some [stationA, stationB]) PlacesServiceStatus.OK,
         Event.markerClick 0]) Sys.initial).view = none := by
  decide

/-- C10 (amended): take any reachable state in which no search callback has run
since a click on a marker (the events `after` the click at position `index` of
`stations`).  If `selectedStation` is set there, it is an element of `stations`
and `stations.indexOf(selectedStation)` is a valid index into `stations` (never
`-1`).  If moreover the last `OK` distance answer delivered is the one chained
to the search answer `R` that produced the current `stations` (no search
callback has run since that search answer, the chained request was answered
`OK` with one value per station, and no `OK` distance answer was delivered in
the events `post` since), that index is a valid index into `distances` and the
lookup `distances[stations.indexOf(selectedStation)]` of the info window is
defined. -/
theorem selected_station_lookup (before after : List Event) (index : Nat)
    (hclick : (run before Sys.initial).view.stations[index]? ≠ none)
    (hquiet : noSearchDelivered
      (step (run before Sys.initial) (Event.markerClick index)) after = true) :
    ∀ st, (run (before ++ Event.markerClick index :: after)
        Sys.initial).view.selectedStation = some st →
      st ∈ (run (before ++ Event.markerClick index :: after) Sys.initial).view.stations
      ∧ 0 ≤ indexOf (run (before ++ Event.markerClick index :: after)
          Sys.initial).view.stations st
      ∧ indexOf (run (before ++ Event.markerClick index :: after) Sys.initial).view.stations st
          < (run (before ++ Event.markerClick index :: after) Sys.initial).view.stations.length
      ∧ ∀ (pre mid post : List Event) (i j : Nat) (p : PendingSearch) (R : List Station)
          (ds : List Int) (response : DistanceMatrixResponse)
          (row : DistanceMatrixResponseRow),
          before ++ Event.markerClick index :: after
            = pre ++ Event.searchResponse i (some R) PlacesServiceStatus.OK
                :: (mid ++ Event.distanceResponse j (some response) DistanceMatrixStatus.OK
                    :: post) →
          (run pre Sys.initial).searchPending[i]? = some p →
          R ≠ [] →
          chainedPosition
            (step (run pre Sys.initial)
              (Event.searchResponse i (some R) PlacesServiceStatus.OK))
            (run pre Sys.initial).distancePending.length mid = some j →
          response.rows.head? = some row →
          row.elements = ds.map (fun d => { distance := some { value := d } }) →
          ds.length = R.length →
          noSearchNorDistanceDelivered
            (step (run mid (step (run pre Sys.initial)
                (Event.searchResponse i (some R) PlacesServiceStatus.OK)))
              (Event.distanceResponse j (some response) DistanceMatrixStatus.OK)) post = true →
          indexOf (run (before ++ Event.markerClick index :: after)
              Sys.initial).view.stations st
            < (run (before ++ Event.markerClick index :: after)
              Sys.initial).view.distances.length
          ∧ ∃ d, infoWindowDistance (run (before ++ Event.markerClick index :: after)
              Sys.initial).view = some d := by
  intro st hst
  have hrun : run (before ++ Event.markerClick index :: after) Sys.initial
      = run after (step (run before Sys.initial) (Event.markerClick index)) := by
    rw [run_append, run_cons]
  have hmem : st ∈ (run (before ++ Event.markerClick index :: after)
      Sys.initial).view.stations := by
    rw [hrun] at hst ⊢
    refine run_selected after _ hquiet ?_ st hst
    cases hs : (run before Sys.initial).view.stations[index]? with
    | none => exact absurd hs hclick
    | some station =>
      intro st0 hst0
      rw [step_marker_click _ index station hs] at hst0 ⊢
      simp only [Option.some.injEq] at hst0
      subst hst0
      exact List.getElem?_mem hs
  obtain ⟨h0, h1, h2⟩ := indexOf_bounds _ st hmem
  refine ⟨hmem, h0, h1, ?_⟩
  intro pre mid post i j p R ds response row heq hp hR hmid hrow hel hlen hpost
  obtain ⟨hstR, hreq⟩ := window_state (run pre Sys.initial) i p R mid j hp hR hmid
  have hre := step_distance_ok _ j _ response row ds hreq hrow hel
  obtain ⟨-, hps, hpd⟩ := run_calm post _ hpost
  have hfinal : run (before ++ Event.markerClick index :: after) Sys.initial
      = run post (step (run mid (step (run pre Sys.initial)
          (Event.searchResponse i (some R) PlacesServiceStatus.OK)))
          (Event.distanceResponse j (some response) DistanceMatrixStatus.OK)) := by
    rw [heq, run_append, run_cons, run_append, run_cons]
  have hstations : (run (before ++ Event.markerClick index :: after)
      Sys.initial).view.stations = R := by
    rw [hfinal, hps, step_view, hre]
    exact hstR
  have hdistances : (run (before ++ Event.markerClick index :: after)
      Sys.initial).view.distances = ds := by
    rw [hfinal, hpd, step_view, hre]
  have hlt : indexOf (run (before ++ Event.markerClick index :: after)
      Sys.initial).view.stations st
      < (run (before ++ Event.markerClick index :: after)
        Sys.initial).view.distances.length := by
    rw [hdistances, hlen, ← hstations]
    exact h1
  refine ⟨hlt, ?_⟩
  have hd : List.indexOf st (run (before ++ Event.markerClick index :: after)
      Sys.initial).view.stations
      < (run (before ++ Event.markerClick index :: after)
        Sys.initial).view.distances.length := by
    rw [h2] at hlt
    exact_mod_cast hlt
  refine ⟨(run (before ++ Event.markerClick index :: after)
    Sys.initial).view.distances.get ⟨_, hd⟩, ?_⟩
  simp [infoWindowDistance, hst, indexOf, hmem, arrayGet, List.getElem?_eq_getElem hd]

theorem selected_station_lookup_witness :
    (run searched Sys.initial).view.stations[1]? ≠ none
    ∧ noSearchDelivered (step (run searched Sys.initial) (Event.markerClick 1))
        [Event.directionsResponse 0 (some { id := 2 }) DirectionsStatus.OK] = true
    ∧ (run (searched ++ Event.markerClick 1 ::
        [Event.directionsResponse 0 (some { id := 2 }) DirectionsStatus.OK])
          Sys.initial).view.selectedStation = some stationB
    ∧ stationB ∈ (run (searched ++ Event.markerClick 1 ::
        [Event.directionsResponse 0 (some { id := 2 }) DirectionsStatus.OK])
          Sys.initial).view.stations
    ∧ (∃ d, infoWindowDistance (run (searched ++ Event.markerClick 1 ::
        [Event.directionsResponse 0 (some { id := 2 }) DirectionsStatus.OK])
          Sys.initial).view = some d)
    ∧ infoWindowDistance (run (searched ++ Event.markerClick 1 ::
        [Event.directionsResponse 0 (some { id := 2 }) DirectionsStatus.OK])
          Sys.initial).view = some 2500 :=
  have h := selected_station_lookup searched
    [Event.directionsResponse 0 (some { id := 2 }) DirectionsStatus.OK] 1
    (by decide) (by decide) stationB (by decide)
  have h2 := h.2.2.2 searchIssued []
    [Event.markerClick 1, Event.directionsResponse 0 (some { id := 2 }) DirectionsStatus.OK]
    0 0
    { env := (run searchIssued Sys.initial).view
      request := { location := { lat := 37, lng := -122 }, radius := "5000",
                   type := ["electric_vehicle_charging_station"] } }
    [stationA, stationB] [1000, 2500] (responseWith [1000, 2500])
    { elements := [{ distance := some { value := 1000 } }, { distance := some { value := 2500 } }] }
    (by decide) (by decide) (by decide) (by decide) (by decide) (by decide) (by decide)
    (by decide)
  ⟨by decide, by decide, by decide, h.1, h2.2, by decide⟩

end ChargeWay
